import Mathlib

/-!
Verification of the OpenAPI-to-llm.txt conversion engine
(`src/services/conversionService.ts`).

The TypeScript source operates on values produced by `JSON.parse`, plus the
distinguished JavaScript value `undefined`.  We model this value domain as the
inductive type `Json` below (numbers are modelled as integers; the source only
ever produces the numeric literal `0` itself, and numeric fields of the input
are only compared with `undefined` and printed).

Modelling conventions, fixed once for the whole development:
* JavaScript member access `v[k]` / `v?.[k]` is modelled by `jsIndexRaw` /
  `jsOptIndex` / `getMem`: own-key lookup on objects; canonical numeric index
  or `length` on arrays; character indexing (a one-character string) or
  `length` on strings; `undefined` on numbers and booleans.  Prototype-chain
  properties (which yield functions, never JSON values) are outside the
  modelled scope; `.length` where the source reads it on a defaulted value is
  modelled by `jsLengthVal`.
* Exceptions (`TypeError` on member access of `undefined`/`null`, on calling a
  missing method, …) are modelled by the `Res.thrown` outcome.
* The source recursions (`parseSchema`, `generateExample`) carry no bound; the
  embedding adds an explicit fuel argument, one unit per nested call, with
  `Res.fuelOut` meaning the computation exceeded the bound.  For any input on
  which the JavaScript terminates, a large enough fuel computes its result.
* String-returning helpers (`jsTemplate`, `stringifyC`, `stringifyP`) also
  carry fuel because `Json` is a nested inductive; fuel `0` returns a dummy.
-/

inductive Json where
  | undefined : Json
  | null : Json
  | bool : Bool → Json
  | num : Int → Json
  | str : String → Json
  | arr : List Json → Json
  | obj : List (String × Json) → Json

/-- Outcome of evaluating a piece of the translated JavaScript: a value, a
thrown exception, or exhaustion of the embedding's fuel bound. -/
inductive Res (α : Type) where
  | ok : α → Res α
  | thrown : String → Res α
  | fuelOut : Res α

def Res.bind {α β : Type} : Res α → (α → Res β) → Res β
  | .ok a, f => f a
  | .thrown m, _ => .thrown m
  | .fuelOut, _ => .fuelOut

instance : Monad Res where
  pure := Res.ok
  bind := Res.bind

@[simp] theorem Res.bind_ok {α β : Type} (a : α) (f : α → Res β) :
    Res.bind (.ok a) f = f a := rfl

@[simp] theorem Res.bind_thrown {α β : Type} (m : String) (f : α → Res β) :
    Res.bind (.thrown m) f = .thrown m := rfl

@[simp] theorem Res.bind_fuelOut {α β : Type} (f : α → Res β) :
    Res.bind (.fuelOut : Res α) f = .fuelOut := rfl

/-- JavaScript truthiness of a parsed-JSON value (`undefined`, `null`,
`false`, `0`, `""` are falsy; every object and array is truthy). -/
def jsTruthy : Json → Bool
  | .undefined => false
  | .null => false
  | .bool b => b
  | .num n => n != 0
  | .str s => s != ""
  | .arr _ => true
  | .obj _ => true

def isUndef : Json → Bool
  | .undefined => true
  | _ => false

/-- Strict equality of a value against a string literal (`v === 'lit'`). -/
def typeIs : Json → String → Bool
  | .str t, s => t == s
  | _, _ => false

/-- The value of the JavaScript expression `a || b`. -/
def orTruthy (a b : Json) : Json := if jsTruthy a then a else b

def isDigitCh (c : Char) : Bool := 48 ≤ c.toNat && c.toNat ≤ 57

def parseNatAcc (acc : Nat) : List Char → Nat
  | [] => acc
  | c :: rest => parseNatAcc (acc * 10 + (c.toNat - 48)) rest

/-- Whether a property name is the canonical decimal form of an array index
(no leading zeros, digits only), the condition under which JavaScript array
indexing `arr[k]` hits an element. -/
def isCanonicalNat : List Char → Bool
  | [] => false
  | ['0'] => true
  | c :: rest => isDigitCh c && c != '0' && rest.all isDigitCh

/-- Member access `v[k]` for `v` not `undefined`/`null`: own-key lookup on an
object; canonical decimal index or the `length` member on an array; character
index (yielding a one-character string) or the `length` member on a string;
`undefined` otherwise. -/
def jsIndexRaw : Json → String → Json
  | .obj fs, k => ((fs.lookup k).getD .undefined)
  | .arr xs, k =>
    if k == "length" then .num xs.length
    else if isCanonicalNat k.data then xs.getD (parseNatAcc 0 k.data) .undefined
    else .undefined
  | .str s, k =>
    if k == "length" then .num s.length
    else if isCanonicalNat k.data then
      match s.data[parseNatAcc 0 k.data]? with
      | some c => .str (String.mk [c])
      | none => .undefined
    else .undefined
  | _, _ => .undefined

/-- Optional-chaining access `v?.[k]`. -/
def jsOptIndex : Json → String → Json
  | .undefined, _ => .undefined
  | .null, _ => .undefined
  | v, k => jsIndexRaw v k

/-- Plain member access `v.k`, which throws a `TypeError` when `v` is
`undefined` or `null`. -/
def getMem : Json → String → Res Json
  | .undefined, _ => .thrown "TypeError"
  | .null, _ => .thrown "TypeError"
  | v, k => .ok (jsIndexRaw v k)

/-- Optional-chaining member access `v?.k`. -/
def getMemOpt (v : Json) (k : String) : Json := jsOptIndex v k

/-- Keys `"0"`, `"1"`, … paired with the elements of a list, as
`Object.entries` produces them for an array. -/
def enumKeys (i : Nat) : List Json → List (String × Json)
  | [] => []
  | x :: rest => (Nat.repr i, x) :: enumKeys (i + 1) rest

/-- `Object.entries(v)` for `v` not `undefined`/`null`. -/
def entriesOf : Json → List (String × Json)
  | .obj fs => fs
  | .arr xs => enumKeys 0 xs
  | .str s => (enumKeys 0 (s.data.map (fun c => Json.str c.toString)))
  | _ => []

/-- `Object.entries(v)`, which throws on `undefined`/`null`. -/
def entriesOfR : Json → Res (List (String × Json))
  | .undefined => .thrown "TypeError"
  | .null => .thrown "TypeError"
  | v => .ok (entriesOf v)

/-- `Object.values(v)` for `v` not `undefined`/`null`. -/
def valuesOf : Json → List Json
  | .obj fs => fs.map Prod.snd
  | .arr xs => xs
  | .str s => s.data.map (fun c => Json.str c.toString)
  | _ => []

def dedupKeysAux (seen : List String) : List String → List String
  | [] => []
  | k :: rest =>
    if seen.contains k then dedupKeysAux seen rest
    else k :: dedupKeysAux (k :: seen) rest

/-- `Object.keys(v)` for `v` not `undefined`/`null` (insertion order; the
integer-first key reordering of JavaScript objects is outside the modelled
scope — schema property names are non-numeric in every claim). -/
def objectKeysTotal : Json → List String
  | .obj fs => dedupKeysAux [] (fs.map Prod.fst)
  | .arr xs => (List.range xs.length).map (fun i => Nat.repr i)
  | .str s => (List.range s.length).map (fun i => Nat.repr i)
  | _ => []

/-- `Object.keys(v)`, which throws a `TypeError` on `undefined`/`null`. -/
def objectKeysR : Json → Res (List String)
  | .undefined => .thrown "TypeError"
  | .null => .thrown "TypeError"
  | v => .ok (objectKeysTotal v)

/-- Property assignment `o[k] = v` on an object literal: overwrite in place
when the key exists, append otherwise. -/
def setField : List (String × Json) → String → Json → List (String × Json)
  | [], k, v => [(k, v)]
  | (k', v') :: rest, k, v =>
    if k' == k then (k', v) :: rest else (k', v') :: setField rest k v

def setFields (acc : List (String × Json)) : List (String × Json) → List (String × Json)
  | [] => acc
  | (k, v) :: rest => setFields (setField acc k v) rest

/-- Object spread `{ ...acc, ...ex }` restricted by the source's
`typeof ex === 'object' && ex !== null` guard: an object spreads its fields,
an array spreads its indices as keys, anything else contributes nothing. -/
def spreadMerge (acc : List (String × Json)) : Json → List (String × Json)
  | .obj fs => setFields acc fs
  | .arr xs => setFields acc (enumKeys 0 xs)
  | _ => acc

/-- Whether the `required` list (a list of JSON values) contains the property
name `k` under JavaScript strict equality. -/
def reqHas (reqs : List Json) (k : String) : Bool :=
  reqs.any (fun e => match e with | .str s => s == k | _ => false)

def isPrefixChars : List Char → List Char → Bool
  | [], _ => true
  | _ :: _, [] => false
  | c :: cs, d :: ds => c == d && isPrefixChars cs ds

/-- Whether the first character list occurs contiguously inside the second. -/
def hasInfixChars : List Char → List Char → Bool
  | needle, [] => needle.isEmpty
  | needle, d :: ds => isPrefixChars needle (d :: ds) || hasInfixChars needle ds

/-- `required.includes(key)` where `required` is the (truthy-or-defaulted)
value of the schema's `required` field: array membership, substring test on a
string receiver, `TypeError` otherwise. -/
def reqIncludesR : Json → String → Res Bool
  | .arr xs, k => .ok (reqHas xs k)
  | .str s, k => .ok (hasInfixChars k.data s.data)
  | _, _ => .thrown "TypeError"

/-- The value of `v.length` as JavaScript sees it. -/
def jsLengthVal : Json → Json
  | .arr xs => .num xs.length
  | .str s => .num s.length
  | .obj fs => ((fs.lookup "length").getD .undefined)
  | _ => .undefined

/-- The comparison `x > 0` (numbers compare directly, numeric strings coerce,
everything else — including `undefined`, giving `NaN` — compares false). -/
def gtZero : Json → Bool
  | .num n => 0 < n
  | .str s => match s.toInt? with | some n => 0 < n | none => false
  | _ => false

/-- The strict comparison `x === 0`. -/
def eqZeroStrict : Json → Bool
  | .num n => n == 0
  | _ => false

/-- The first-occurrence replacement `s.replace('#/', '')`, on characters. -/
def stripHashCh : List Char → List Char
  | [] => []
  | '#' :: '/' :: rest => rest
  | c :: rest => c :: stripHashCh rest

/-- Splitting on a one-character separator, as `s.split(sep)` does. -/
def splitOnChar (sep : Char) : List Char → List (List Char)
  | [] => [[]]
  | c :: rest =>
    match splitOnChar sep rest with
    | [] => [[]]
    | chunk :: more => if c == sep then [] :: chunk :: more else (c :: chunk) :: more

/-- The `$ref` resolution walk of the source: strip the first `#/`, split on
`/`, then fold `target = target?.[segment]` from the root document. -/
def resolveRef (refStr : String) (root : Json) : Json :=
  ((splitOnChar (Char.ofNat 47) (stripHashCh refStr.data)).map String.mk).foldl
    (fun t seg => jsOptIndex t seg) root

/-- Modelled: the current wall-clock timestamp returned by
`new Date().toISOString()`, the one non-deterministic value of the engine. -/
def nowIso : String := "1970-01-01T00:00:00.000Z"

def indentStr (d : Nat) : String := String.join (List.replicate d "  ")

def jsToLower (s : String) : String := String.mk (s.data.map Char.toLower)

def jsToUpper (s : String) : String := String.mk (s.data.map Char.toUpper)

/-- String coercion of a value inside a template literal. -/
def jsTemplate : Nat → Json → String
  | 0, _ => ""
  | fuel + 1, v =>
    match v with
    | .undefined => "undefined"
    | .null => "null"
    | .bool b => if b then "true" else "false"
    | .num n => toString n
    | .str s => s
    | .arr xs =>
      String.intercalate ","
        (xs.map (fun x =>
          match x with
          | .undefined => ""
          | .null => ""
          | y => jsTemplate fuel y))
    | .obj _ => "[object Object]"

def escChar (c : Char) : String :=
  if c = '"' then "\\\""
  else if c = '\\' then "\\\\"
  else if c = '\n' then "\\n"
  else if c = '\t' then "\\t"
  else if c = '\r' then "\\r"
  else c.toString

def quoteStr (s : String) : String :=
  "\"" ++ String.join (s.data.map escChar) ++ "\""

/-- Compact `JSON.stringify(v)`: `none` models the `undefined` result. -/
def stringifyC : Nat → Json → Option String
  | 0, _ => none
  | fuel + 1, v =>
    match v with
    | .undefined => none
    | .null => some "null"
    | .bool b => some (if b then "true" else "false")
    | .num n => some (toString n)
    | .str s => some (quoteStr s)
    | .arr xs =>
      some ("[" ++ String.intercalate ","
        (xs.map (fun x => (stringifyC fuel x).getD "null")) ++ "]")
    | .obj fs =>
      some ("\x7b" ++ String.intercalate ","
        (fs.filterMap (fun kv =>
          (stringifyC fuel kv.2).map (fun sv => quoteStr kv.1 ++ ":" ++ sv)))
        ++ "\x7d")

def padSp (n : Nat) : String := String.mk (List.replicate n ' ')

/-- Pretty `JSON.stringify(v, null, 2)` at current indentation `ind`. -/
def stringifyP : Nat → Nat → Json → Option String
  | 0, _, _ => none
  | fuel + 1, ind, v =>
    match v with
    | .undefined => none
    | .null => some "null"
    | .bool b => some (if b then "true" else "false")
    | .num n => some (toString n)
    | .str s => some (quoteStr s)
    | .arr [] => some "[]"
    | .arr xs =>
      some ("[\n" ++ String.intercalate ",\n"
        (xs.map (fun x => padSp (ind + 2) ++ (stringifyP fuel (ind + 2) x).getD "null"))
        ++ "\n" ++ padSp ind ++ "]")
    | .obj fs =>
      let items := fs.filterMap (fun kv =>
        (stringifyP fuel (ind + 2) kv.2).map
          (fun sv => padSp (ind + 2) ++ quoteStr kv.1 ++ ": " ++ sv))
      some (if items.isEmpty then "\x7b\x7d"
        else "\x7b\n" ++ String.intercalate ",\n" items ++ "\n" ++ padSp ind ++ "\x7d")

/-- Template-position `JSON.stringify(e)` (an `undefined` result coerces to
the text `undefined` inside the template literal). -/
def stringifyT (fuel : Nat) (v : Json) : String := (stringifyC fuel v).getD "undefined"

/-! ## The Example Synthesizer (`generateExample`, source lines 167-232) -/

/-- The `schema.allOf.forEach` loop of `generateExample`: synthesize each
child with `g` and spread-merge object/array results into the accumulator. -/
def genAllOf (g : Json → Res Json) : List Json → List (String × Json) → Res (List (String × Json))
  | [], acc => .ok acc
  | sub :: rest, acc => Res.bind (g sub) (fun ex => genAllOf g rest (spreadMerge acc ex))

/-- The `Object.entries(props).forEach` loop of `generateExample`'s object
branch: skip non-required keys in required-only mode, otherwise assign the
child synthesis. -/
def genProps (g : Json → Res Json) (req : Json) (onlyRequired : Bool) :
    List (String × Json) → List (String × Json) → Res (List (String × Json))
  | [], acc => .ok acc
  | (key, val) :: rest, acc =>
    Res.bind
      (if onlyRequired then Res.bind (reqIncludesR req key) (fun b => .ok (!b)) else .ok false)
      (fun skip =>
        if skip then genProps g req onlyRequired rest acc
        else Res.bind (g val) (fun ex => genProps g req onlyRequired rest (setField acc key ex)))

/-- `generateExample(schema, root, onlyRequired)` (source lines 167-232): the
recursive Example Synthesizer, with explicit fuel. -/
def generateExample : Nat → Json → Json → Bool → Res Json
  | 0, _, _, _ => .fuelOut
  | fuel + 1, schema, root, onlyRequired =>
    if jsTruthy schema = false then .ok .undefined
    else
      let ref := jsIndexRaw schema "$ref"
      if jsTruthy ref then
        match ref with
        | .str s =>
          let target := resolveRef s root
          if jsTruthy target then generateExample fuel target root onlyRequired
          else .ok .undefined
        | _ => .thrown "TypeError"
      else
        let allOfv := jsIndexRaw schema "allOf"
        if jsTruthy allOfv then
          match allOfv with
          | .arr subs =>
            Res.bind (genAllOf (fun sub => generateExample fuel sub root onlyRequired) subs [])
              (fun fs => .ok (.obj fs))
          | _ => .thrown "TypeError"
        else
          let anyOfv := jsIndexRaw schema "anyOf"
          let oneOfv := jsIndexRaw schema "oneOf"
          if jsTruthy anyOfv || jsTruthy oneOfv then
            generateExample fuel (jsIndexRaw (orTruthy anyOfv oneOfv) "0") root onlyRequired
          else
            let exv := jsIndexRaw schema "example"
            if isUndef exv = false then .ok exv
            else
              let dfv := jsIndexRaw schema "default"
              if isUndef dfv = false then .ok dfv
              else
                let tyv := jsIndexRaw schema "type"
                if typeIs tyv "object" || jsTruthy (jsIndexRaw schema "properties") then
                  let props := orTruthy (jsIndexRaw schema "properties") (.obj [])
                  let req := orTruthy (jsIndexRaw schema "required") (.arr [])
                  Res.bind
                    (genProps (fun v => generateExample fuel v root onlyRequired) req
                      onlyRequired (entriesOf props) [])
                    (fun fs => .ok (.obj fs))
                else if typeIs tyv "array" then
                  Res.bind (generateExample fuel (jsIndexRaw schema "items") root onlyRequired)
                    (fun v => .ok (.arr [v]))
                else
                  let env := jsIndexRaw schema "enum"
                  if jsTruthy env then .ok (jsIndexRaw env "0")
                  else
                    match tyv with
                    | .str "string" =>
                      if typeIs (jsIndexRaw schema "format") "date-time" then .ok (.str nowIso)
                      else if typeIs (jsIndexRaw schema "format") "uri" then
                        .ok (.str "https://example.com")
                      else .ok (.str "string")
                    | .str "integer" => .ok (.num 0)
                    | .str "number" => .ok (.num 0)
                    | .str "boolean" => .ok (.bool true)
                    | _ => .ok .null

/-! ## The Schema Describer (`parseSchema`, source lines 237-319) -/

/-- The composition branch's `subSchemas.forEach` loop: describe each child
with `g` and concatenate the emitted lines. -/
def descList (g : Json → Res (List String)) : List Json → Res (List String)
  | [] => .ok []
  | s :: rest =>
    Res.bind (g s) (fun ls => Res.bind (descList g rest) (fun more => .ok (ls ++ more)))

/-- One property line of the Describer's object branch plus the conditional
recursion into the property's own schema; `g` is the recursive call at a given
depth and `sf` the fuel for the string helpers. -/
def descProps (g : Json → Nat → Res (List String)) (req : Json) (depth sf : Nat) :
    List (String × Json) → Res (List String)
  | [] => .ok []
  | (key, val) :: rest =>
    Res.bind (reqIncludesR req key) (fun isReq =>
      Res.bind (getMem val "type") (fun tyv =>
        let typeDisp := orTruthy tyv
          (if jsTruthy (jsIndexRaw val "$ref") then .str "object" else .str "unknown")
        let fmt := jsIndexRaw val "format"
        let mn := jsIndexRaw val "minimum"
        let mx := jsIndexRaw val "maximum"
        let df := jsIndexRaw val "default"
        let env := jsIndexRaw val "enum"
        let exm := jsIndexRaw val "example"
        let md := "`" ++ jsTemplate sf typeDisp ++ "`"
          ++ (if jsTruthy fmt then ", format: `" ++ jsTemplate sf fmt ++ "`" else "")
          ++ (if isUndef mn then "" else ", min: `" ++ jsTemplate sf mn ++ "`")
          ++ (if isUndef mx then "" else ", max: `" ++ jsTemplate sf mx ++ "`")
          ++ (if isUndef df then "" else ", default: `" ++ stringifyT sf df ++ "`")
          ++ (match env with
              | .arr es => ", enum: [" ++
                  String.intercalate ", " (es.map (fun e => "`" ++ stringifyT sf e ++ "`")) ++ "]"
              | _ => "")
          ++ (if isUndef exm then "" else ", example: `" ++ stringifyT sf exm ++ "`")
        let dsc := jsIndexRaw val "description"
        let line := indentStr depth ++ "- `" ++ key ++ "` ["
          ++ (if isReq then "**Required**" else "Optional") ++ "] (" ++ md ++ ")"
          ++ (if jsTruthy dsc then ": " ++ jsTemplate sf dsc else "")
        Res.bind
          (if typeIs tyv "object" || jsTruthy (jsIndexRaw val "properties")
              || jsTruthy (jsIndexRaw val "$ref") then
            g val (depth + 1)
          else if typeIs tyv "array" && jsTruthy (jsIndexRaw val "items") then
            Res.bind (g (jsIndexRaw val "items") (depth + 2))
              (fun inner => .ok ((indentStr (depth + 1) ++ "*Items:*") :: inner))
          else .ok [])
          (fun sub =>
            Res.bind (descProps g req depth sf rest)
              (fun more => .ok (line :: (sub ++ more))))))

/-- `parseSchema(schema, root, lines, depth)` (source lines 237-319): the
recursive Schema Describer, returning the lines it appends, with explicit
fuel. -/
def parseSchema : Nat → Json → Json → Nat → Res (List String)
  | 0, _, _, _ => .fuelOut
  | fuel + 1, schema, root, depth =>
    if jsTruthy schema = false then .ok []
    else
      let ref := jsIndexRaw schema "$ref"
      if jsTruthy ref then
        match ref with
        | .str s =>
          let target := resolveRef s root
          if jsTruthy target then parseSchema fuel target root depth
          else .ok [indentStr depth ++ "- `Ref: " ++ s ++ "`"]
        | _ => .thrown "TypeError"
      else
        let aO := jsIndexRaw schema "allOf"
        let anO := jsIndexRaw schema "anyOf"
        let oO := jsIndexRaw schema "oneOf"
        if jsTruthy aO || jsTruthy anO || jsTruthy oO then
          let label := if jsTruthy aO then "All of:" else if jsTruthy anO then "Any of:" else "One of:"
          let line := indentStr depth ++ "- *" ++ label ++ "*"
          match orTruthy aO (orTruthy anO oO) with
          | .arr xs =>
            Res.bind (descList (fun sub => parseSchema fuel sub root (depth + 1)) xs)
              (fun ls => .ok (line :: ls))
          | _ => .thrown "TypeError"
        else
          let tyv := jsIndexRaw schema "type"
          if typeIs tyv "object" || jsTruthy (jsIndexRaw schema "properties") then
            let props := orTruthy (jsIndexRaw schema "properties") (.obj [])
            let req := orTruthy (jsIndexRaw schema "required") (.arr [])
            descProps (fun v d => parseSchema fuel v root d) req depth fuel (entriesOf props)
          else if typeIs tyv "array" && jsTruthy (jsIndexRaw schema "items") then
            let df := jsIndexRaw schema "default"
            let md := "array" ++ (if isUndef df then "" else ", default: `" ++ stringifyT fuel df ++ "`")
            let dsc := jsIndexRaw schema "description"
            let line := indentStr depth ++ "- `Array` (" ++ md ++ ")"
              ++ (if jsTruthy dsc then ": " ++ jsTemplate fuel dsc else "")
            Res.bind (parseSchema fuel (jsIndexRaw schema "items") root (depth + 1))
              (fun inner => .ok (line :: inner))
          else if jsTruthy tyv then
            let fmt := jsIndexRaw schema "format"
            let mn := jsIndexRaw schema "minimum"
            let mx := jsIndexRaw schema "maximum"
            let df := jsIndexRaw schema "default"
            let env := jsIndexRaw schema "enum"
            let md := "`" ++ jsTemplate fuel tyv ++ "`"
              ++ (if jsTruthy fmt then ", format: `" ++ jsTemplate fuel fmt ++ "`" else "")
              ++ (if isUndef mn then "" else ", min: `" ++ jsTemplate fuel mn ++ "`")
              ++ (if isUndef mx then "" else ", max: `" ++ jsTemplate fuel mx ++ "`")
              ++ (if isUndef df then "" else ", default: `" ++ stringifyT fuel df ++ "`")
              ++ (match env with
                  | .arr es => ", enum: [" ++
                      String.intercalate ", " (es.map (fun e => "`" ++ stringifyT fuel e ++ "`")) ++ "]"
                  | _ => "")
            let dsc := jsIndexRaw schema "description"
            .ok [indentStr depth ++ "- (" ++ md ++ ")"
              ++ (if jsTruthy dsc then ": " ++ jsTemplate fuel dsc else "")]
          else .ok []

/-! ## The Document Assembler (`localConvertToLlmTxt`, source lines 7-162) -/

/-- The content-type lookup chain
`content['application/json']?.schema || content['*/*']?.schema ||
(Object.values(content)[0] as any)?.schema`. -/
def contentSchemaOf (content : Json) : Json :=
  let a := getMemOpt (jsIndexRaw content "application/json") "schema"
  if jsTruthy a then a
  else
    let b := getMemOpt (jsIndexRaw content "*/*") "schema"
    if jsTruthy b then b
    else getMemOpt ((valuesOf content).getD 0 .undefined) "schema"

/-- One rendered parameter line (source lines 46-65). -/
def renderParamLine (sf : Nat) (p : Json) : Res (List String) :=
  Res.bind (getMem p "schema") (fun schemaRaw =>
    let schema := orTruthy schemaRaw (.obj [])
    let tyv := orTruthy (jsIndexRaw schema "type") (orTruthy (jsIndexRaw p "type") (.str "unknown"))
    let df := if isUndef (jsIndexRaw schema "default") then jsIndexRaw p "default"
      else jsIndexRaw schema "default"
    let env := orTruthy (jsIndexRaw schema "enum") (jsIndexRaw p "enum")
    let fmt := orTruthy (jsIndexRaw schema "format") (jsIndexRaw p "format")
    let mn := if isUndef (jsIndexRaw schema "minimum") then jsIndexRaw p "minimum"
      else jsIndexRaw schema "minimum"
    let mx := if isUndef (jsIndexRaw schema "maximum") then jsIndexRaw p "maximum"
      else jsIndexRaw schema "maximum"
    let md := jsTemplate sf (jsIndexRaw p "in") ++ ", `" ++ jsTemplate sf tyv ++ "`"
      ++ (if jsTruthy fmt then ", format: `" ++ jsTemplate sf fmt ++ "`" else "")
      ++ (if isUndef mn then "" else ", min: `" ++ jsTemplate sf mn ++ "`")
      ++ (if isUndef mx then "" else ", max: `" ++ jsTemplate sf mx ++ "`")
      ++ (if isUndef df then "" else ", default: `" ++ stringifyT sf df ++ "`")
      ++ (match env with
          | .arr es =>
            if jsTruthy env then ", enum: [" ++
              String.intercalate ", " (es.map (fun e => "`" ++ stringifyT sf e ++ "`")) ++ "]"
            else ""
          | _ => "")
    let reqStr := if jsTruthy (jsIndexRaw p "required") then "**Required**" else "Optional"
    let dsc := jsIndexRaw p "description"
    .ok ["- `" ++ jsTemplate sf (jsIndexRaw p "name") ++ "` [" ++ reqStr ++ "] (" ++ md ++ "): "
      ++ jsTemplate sf (orTruthy dsc (.str "No description"))])

/-- The Example Response selection chain (source line 123):
`(content['application/json']?.example ||
content['application/json']?.examples?.[0]?.value) ||
generateExample(jsonSchema, spec, false)`. -/
def respExampleOf (fuel : Nat) (content jsonSchema root : Json) : Res Json :=
  let aj := jsIndexRaw content "application/json"
  let e1 := getMemOpt aj "example"
  let e2 := getMemOpt (getMemOpt (getMemOpt aj "examples") "0") "value"
  if jsTruthy e1 then .ok e1
  else if jsTruthy e2 then .ok e2
  else generateExample fuel jsonSchema root false

/-- Re-indent a pretty-printed JSON text by two spaces per line
(source line 127). -/
def reindentTwo (s : String) : String :=
  String.intercalate "\n" ((splitOnChar (Char.ofNat 10) s.data).map (fun l => "  " ++ String.mk l))

/-- The Example Response block (source lines 124-129): emitted only when the
chosen value is truthy and has at least one enumerable key. -/
def exampleBlockOf (fuel : Nat) (respEx : Json) : List String :=
  if jsTruthy respEx && !(objectKeysTotal respEx).isEmpty then
    ["  **Example Response**:", "  ```json",
      reindentTwo ((stringifyP fuel 0 respEx).getD "undefined"), "  ```"]
  else []

/-- One rendered response block (source lines 112-136). -/
def renderResponse (fuel : Nat) (root : Json) (code : String) (response : Json) :
    Res (List String) :=
  Res.bind (getMem response "description") (fun d =>
    let head := "**Response " ++ code ++ ": "
      ++ jsTemplate fuel (orTruthy d (.str "No description")) ++ "**"
    let content := orTruthy (jsIndexRaw response "content") (.obj [])
    let jsonSchema := contentSchemaOf content
    Res.bind
      (if jsTruthy jsonSchema then
        Res.bind (parseSchema fuel jsonSchema root 1) (fun ls =>
          Res.bind (respExampleOf fuel content jsonSchema root) (fun respEx =>
            .ok (ls ++ exampleBlockOf fuel respEx)))
      else if jsTruthy (jsIndexRaw response "$ref") then
        parseSchema fuel response root 1
      else .ok ["  - No response body schema defined."])
      (fun body => .ok (head :: (body ++ [""]))))

/-- Sequential rendering of a list of key/value pairs, concatenating the
emitted lines (the body of the `Object.entries(...).forEach(...)` loops of
the Assembler). -/
def renderPairs (g : String × Json → Res (List String)) :
    List (String × Json) → Res (List String)
  | [] => .ok []
  | kv :: rest =>
    Res.bind (g kv) (fun ls => Res.bind (renderPairs g rest) (fun more => .ok (ls ++ more)))

/-- The title and summary lines (source lines 18-19): `spec.info.title` and
`spec.info.description` with their documented fallbacks.  Note the unguarded
member accesses: a document without an `info` object throws here. -/
def headerLines (fuel : Nat) (spec : Json) : Res (List String) :=
  Res.bind (getMem spec "info") (fun info1 =>
    Res.bind (getMem info1 "title") (fun t =>
      let l1 := "# " ++ jsTemplate fuel (orTruthy t (.str "API Documentation"))
      Res.bind (getMem spec "info") (fun info2 =>
        Res.bind (getMem info2 "description") (fun d =>
          .ok [l1, jsTemplate fuel (orTruthy d (.str "No description provided."))]))))

def httpMethodNames : List String :=
  ["get", "post", "put", "delete", "patch", "options", "head"]

/-- One operation block (source lines 33-157), for a recognized HTTP method
key. -/
def renderOp (fuel : Nat) (root baseUrl : Json) (path method : String) (op : Json) :
    Res (List String) :=
  Res.bind (getMem op "summary") (fun sm =>
    let summary := orTruthy sm (orTruthy (jsIndexRaw op "operationId") (.str "No summary"))
    let l1 := "### " ++ jsToUpper method ++ " " ++ path ++ " - " ++ jsTemplate fuel summary
    let dsc := jsIndexRaw op "description"
    let dl := if jsTruthy dsc then [jsTemplate fuel dsc] else []
    let parameters := orTruthy (jsIndexRaw op "parameters") (.arr [])
    Res.bind
      (if gtZero (jsLengthVal parameters) then
        match parameters with
        | .arr ps =>
          Res.bind (descList (renderParamLine fuel) ps)
            (fun ls => .ok ("**Parameters:**" :: ls))
        | _ => .thrown "TypeError"
      else .ok [])
      (fun paramLines =>
    let requestBody := jsIndexRaw op "requestBody"
    Res.bind
      (if jsTruthy requestBody then
        let content := orTruthy (jsIndexRaw requestBody "content") (.obj [])
        let bodySchema := contentSchemaOf content
        Res.bind
          (if jsTruthy bodySchema then parseSchema fuel bodySchema root 0
          else
            let types := String.intercalate ", " (objectKeysTotal content)
            .ok ["- *Content types: " ++ (if types == "" then "Unknown" else types)
              ++ " (No schema defined)*"])
          (fun bl => .ok (bodySchema, "**Request Body:**" :: bl))
      else .ok (Json.null, []))
      (fun bsbl =>
    let bodySchema := bsbl.1
    let noInput :=
      if eqZeroStrict (jsLengthVal parameters) && jsTruthy requestBody = false then
        ["- No input parameters required."]
      else []
    Res.bind
      (if jsTruthy bodySchema then
        Res.bind (generateExample fuel bodySchema root true) (fun requiredEx =>
          Res.bind (generateExample fuel bodySchema root false) (fun fullEx =>
            Res.bind (objectKeysR requiredEx) (fun ks =>
              let b1 := if ks.isEmpty then []
                else ["**Required Parameters Example**:", "```json",
                  (stringifyP fuel 0 requiredEx).getD "", "```", ""]
              .ok (b1 ++ ["**Full Example**:", "```json",
                (stringifyP fuel 0 fullEx).getD "", "```", ""]))))
      else .ok [])
      (fun exLines =>
    let responses := orTruthy (jsIndexRaw op "responses") (.obj [])
    Res.bind
      (if (objectKeysTotal responses).isEmpty then
        .ok ["- No response documentation provided."]
      else
        renderPairs (fun kv => renderResponse fuel root kv.1 kv.2) (entriesOf responses))
      (fun outLines =>
    Res.bind
      (if jsTruthy bodySchema then
        Res.bind (generateExample fuel bodySchema root true) (fun reqEx =>
          .ok (" \\\n  --data \x27" ++ (stringifyP fuel 0 reqEx).getD "undefined" ++ "\x27"))
      else .ok "")
      (fun dataPart =>
    let curl := "curl --request " ++ jsToUpper method ++ " \\\n  --url "
      ++ jsTemplate fuel baseUrl ++ path
      ++ " \\\n  --header \"Content-Type: application/json\"" ++ dataPart
    .ok ([l1] ++ dl ++ [""] ++ ["#### Input"] ++ paramLines ++ bsbl.2 ++ noInput ++ [""]
      ++ exLines ++ ["#### Output"] ++ outLines
      ++ ["#### Usage Examples", "", "##### cURL", "```bash", curl, "```", "", "---", ""])))))))

/-- One HTTP-method entry under a path: render the operation when the
lower-cased key is a recognized method, emit nothing otherwise
(source lines 30-32). -/
def renderMethod (fuel : Nat) (root baseUrl : Json) (path : String)
    (kv : String × Json) : Res (List String) :=
  if httpMethodNames.contains (jsToLower kv.1) then renderOp fuel root baseUrl path kv.1 kv.2
  else .ok []

/-- One path entry: `Object.entries(methods)` (which throws on a `null`
methods value) then every method key (source lines 29-30). -/
def renderPath (fuel : Nat) (root baseUrl : Json) (kv : String × Json) : Res (List String) :=
  Res.bind (entriesOfR kv.2) (fun ms =>
    renderPairs (renderMethod fuel root baseUrl kv.1) ms)

/-- `localConvertToLlmTxt(jsonContent)` (source lines 7-162).  The
`JSON.parse` boundary is modelled by the `Option Json` argument: `none` is an
input text that fails to parse (the source then throws
`"Invalid JSON format"`), `some spec` is the parsed document tree. -/
def localConvertToLlmTxt (fuel : Nat) (parsed : Option Json) : Res String :=
  match parsed with
  | none => .thrown "Invalid JSON format"
  | some spec =>
    Res.bind (headerLines fuel spec) (fun hd =>
      Res.bind (getMem spec "paths") (fun p0 =>
        let paths := orTruthy p0 (.obj [])
        Res.bind (getMem spec "servers") (fun srv =>
          let baseUrl := orTruthy (getMemOpt (getMemOpt srv "0") "url")
            (.str "https://api.example.com")
          Res.bind (renderPairs (renderPath fuel spec baseUrl) (entriesOf paths))
            (fun opLines =>
              .ok (String.intercalate "\n"
                (hd ++ ["", "## Endpoints", ""] ++ opLines))))))

/-! ## Concrete input documents used by the claim theorems -/

/-- The first branch of `a || b` as an `Option` selection, used to state the
`allOf` overwrite property. -/
def firstSome (a b : Option Json) : Option Json :=
  match a with
  | some v => some v
  | none => b

/-- A `$ref` node pointing at `#/components/schemas/Node`. -/
def cycRef : Json := Json.obj [("$ref", Json.str "#/components/schemas/Node")]

/-- A self-referential object schema: its `next` property refers back to the
schema itself. -/
def cycNode : Json := Json.obj [("type", Json.str "object"),
  ("properties", Json.obj [("next", cycRef)])]

/-- A document whose `#/components/schemas/Node` schema is cyclic. -/
def cycDoc : Json :=
  Json.obj [("components", Json.obj [("schemas", Json.obj [("Node", cycNode)])])]

/-- A parsed document with an `info.title` string. -/
def titleDoc : Json := Json.obj [("info", Json.obj [("title", Json.str "My API")])]

/-- A `$ref` whose resolution walk ends at the non-container string
`"My API"` inside `titleDoc`. -/
def refToTitle : Json := Json.obj [("$ref", Json.str "#/info/title")]

/-- A `$ref` node pointing at a path missing from the document. -/
def danglingRef : Json := Json.obj [("$ref", Json.str "#/missing")]

/-- A well-formed document whose request-body schema is a dangling `$ref`:
`generateExample` yields `undefined` for it and the Assembler then calls
`Object.keys(undefined)`. -/
def c1FailDoc : Json := Json.obj [("info", Json.obj [("title", Json.str "T")]),
  ("paths", Json.obj [("/x", Json.obj [("post", Json.obj [
    ("requestBody", Json.obj [("content", Json.obj [("application/json",
      Json.obj [("schema", Json.obj [("$ref", Json.str "#/definitions/Missing")])])])]),
    ("responses", Json.obj [])])])])]

/-- An `allOf` schema whose single child is an array schema. -/
def c4ArrSchema : Json := Json.obj [("allOf", Json.arr [Json.obj [
  ("type", Json.str "array"), ("items", Json.obj [("type", Json.str "integer")])]])]

def w4c1 : Json := Json.obj [("example", Json.obj [("a", Json.num 1), ("b", Json.num 2)])]

def w4c2 : Json := Json.obj [("example", Json.obj [("b", Json.num 9)])]

/-- An `allOf` schema with two object children overlapping on key `b`. -/
def w4Schema : Json := Json.obj [("allOf", Json.arr [w4c1, w4c2])]

/-- An `anyOf` schema with an integer first alternative and a string second. -/
def w5Schema : Json := Json.obj [("anyOf", Json.arr [
  Json.obj [("type", Json.str "integer")], Json.obj [("type", Json.str "string")]])]

/-- An object schema with one declared property that also carries an explicit
(empty-object) `example`. -/
def c6Cex : Json := Json.obj [("type", Json.str "object"),
  ("properties", Json.obj [("a", Json.obj [("type", Json.str "string")])]),
  ("example", Json.obj [])]

/-- An object schema with one declared property and no example or default. -/
def w6Schema : Json := Json.obj [("type", Json.str "object"),
  ("properties", Json.obj [("a", Json.obj [("type", Json.str "string")])])]

/-- An object schema with an empty `required` list but an explicit `example`
carrying the key `z`. -/
def c7Cex : Json := Json.obj [("type", Json.str "object"),
  ("properties", Json.obj []), ("required", Json.arr []),
  ("example", Json.obj [("z", Json.num 1)])]

/-- An object schema with properties `a`, `b` of which only `a` is required. -/
def w7Schema : Json := Json.obj [("type", Json.str "object"),
  ("properties", Json.obj [("a", Json.obj [("type", Json.str "string")]),
    ("b", Json.obj [("type", Json.str "integer")])]),
  ("required", Json.arr [Json.str "a"])]

def c9Schema : Json := Json.obj [("type", Json.str "object"),
  ("properties", Json.obj [("a", Json.obj [("type", Json.str "string")])])]

/-- A response content whose `examples` map has one *named* entry (`sample`)
whose value is the object `{"b": 1}`, together with a schema. -/
def c9Content : Json := Json.obj [("application/json", Json.obj [
  ("examples", Json.obj [("sample", Json.obj [("value",
    Json.obj [("b", Json.num 1)])])]),
  ("schema", c9Schema)])]

/-- A schema node whose `allOf` key is present but holds `null`. -/
def c10Cex : Json := Json.obj [("allOf", Json.null)]

/-- An `allOf` schema whose only child is a dangling `$ref` (its synthesis is
`undefined`). -/
def w10Schema : Json :=
  Json.obj [("allOf", Json.arr [Json.obj [("$ref", Json.str "#/nope")]])]

/-- A parsed document with an `info` object that has no title and no
description. -/
def w8Doc : Json := Json.obj [("info", Json.obj [])]

/-! ## Helper lemmas -/

theorem lookup_eq_none_of_not_mem {fs : List (String × Json)} {k : String}
    (h : k ∉ fs.map Prod.fst) : fs.lookup k = none := by
  induction fs with
  | nil => rfl
  | cons kv rest ih =>
    obtain ⟨k1, v1⟩ := kv
    simp only [List.map_cons, List.mem_cons, not_or] at h
    have hb : (k == k1) = false := beq_eq_false_iff_ne.mpr h.1
    simp only [List.lookup, hb, ih h.2]

theorem setField_append_of_not_mem (acc : List (String × Json)) (k : String) (v : Json)
    (h : k ∉ acc.map Prod.fst) : setField acc k v = acc ++ [(k, v)] := by
  induction acc with
  | nil => rfl
  | cons kv rest ih =>
    obtain ⟨k1, v1⟩ := kv
    simp only [List.map_cons, List.mem_cons, not_or] at h
    have hb : (k1 == k) = false := beq_eq_false_iff_ne.mpr (fun e => h.1 e.symm)
    simp only [setField, hb, ih h.2, List.cons_append, if_false, Bool.false_eq_true]

theorem setFields_append : ∀ (fs acc : List (String × Json)),
    (acc.map Prod.fst ++ fs.map Prod.fst).Nodup → setFields acc fs = acc ++ fs := by
  intro fs
  induction fs with
  | nil => intro acc _; simp [setFields]
  | cons kv rest ih =>
    obtain ⟨k1, v1⟩ := kv
    intro acc hnd
    have hk : k1 ∉ acc.map Prod.fst := by
      have := List.nodup_append.mp hnd
      intro hmem
      exact this.2.2 hmem (by simp)
    have hstep := setField_append_of_not_mem acc k1 v1 hk
    have hnd2 : ((acc ++ [(k1, v1)]).map Prod.fst ++ rest.map Prod.fst).Nodup := by
      simpa [List.append_assoc] using hnd
    calc setFields acc ((k1, v1) :: rest) = setFields (setField acc k1 v1) rest := rfl
      _ = setFields (acc ++ [(k1, v1)]) rest := by rw [hstep]
      _ = (acc ++ [(k1, v1)]) ++ rest := ih _ hnd2
      _ = acc ++ (k1, v1) :: rest := by simp

theorem lookup_setField_self (acc : List (String × Json)) (k : String) (v : Json) :
    (setField acc k v).lookup k = some v := by
  induction acc with
  | nil => simp [setField, List.lookup]
  | cons kv rest ih =>
    obtain ⟨k1, v1⟩ := kv
    by_cases he : k1 = k
    · subst he
      simp [setField, List.lookup]
    · have hb : (k1 == k) = false := beq_eq_false_iff_ne.mpr he
      have hb2 : (k == k1) = false := beq_eq_false_iff_ne.mpr (fun e => he e.symm)
      simp [setField, List.lookup, hb, hb2, ih]

theorem lookup_setField_other (acc : List (String × Json)) (k : String) (v : Json)
    (k' : String) (h : k' ≠ k) : (setField acc k v).lookup k' = acc.lookup k' := by
  induction acc with
  | nil =>
    have hb : (k' == k) = false := beq_eq_false_iff_ne.mpr h
    simp [setField, List.lookup, hb]
  | cons kv rest ih =>
    obtain ⟨k1, v1⟩ := kv
    by_cases he : k1 = k
    · subst he
      have hb : (k' == k1) = false := beq_eq_false_iff_ne.mpr h
      simp [setField, List.lookup, hb]
    · have hb : (k1 == k) = false := beq_eq_false_iff_ne.mpr he
      by_cases he2 : k' = k1
      · subst he2
        simp [setField, List.lookup, hb]
      · have hb2 : (k' == k1) = false := beq_eq_false_iff_ne.mpr he2
        simp [setField, List.lookup, hb, hb2, ih]

theorem lookup_setFields : ∀ (fs : List (String × Json)), (fs.map Prod.fst).Nodup →
    ∀ (acc : List (String × Json)) (k : String),
    (setFields acc fs).lookup k = firstSome (fs.lookup k) (acc.lookup k) := by
  intro fs
  induction fs with
  | nil => intro _ acc k; simp [setFields, List.lookup, firstSome]
  | cons kv rest ih =>
    obtain ⟨k1, v1⟩ := kv
    intro hnd acc k
    simp only [List.map_cons, List.nodup_cons] at hnd
    have step : setFields acc ((k1, v1) :: rest) = setFields (setField acc k1 v1) rest := rfl
    rw [step, ih hnd.2]
    by_cases he : k = k1
    · subst he
      have hr : rest.lookup k = none := lookup_eq_none_of_not_mem hnd.1
      simp [List.lookup, hr, firstSome, lookup_setField_self]
    · have hb : (k == k1) = false := beq_eq_false_iff_ne.mpr he
      simp [List.lookup, hb, lookup_setField_other acc k1 v1 k he]

theorem genProps_false_keys (g : Json → Res Json) (req : Json) :
    ∀ (entries acc out : List (String × Json)),
      (acc.map Prod.fst ++ entries.map Prod.fst).Nodup →
      genProps g req false entries acc = .ok out →
      out.map Prod.fst = acc.map Prod.fst ++ entries.map Prod.fst := by
  intro entries
  induction entries with
  | nil =>
    intro acc out _ h
    simp only [genProps, Res.ok.injEq] at h
    simp [← h]
  | cons kv rest ih =>
    obtain ⟨key, val⟩ := kv
    intro acc out hnd h
    simp only [genProps, Res.bind_ok, if_neg, Bool.false_eq_true, if_false] at h
    cases hg : g val with
    | ok ex =>
      rw [hg] at h
      simp only [Res.bind_ok] at h
      have hkey : key ∉ acc.map Prod.fst := by
        have hd := (List.nodup_append.mp hnd).2.2
        intro hmem
        exact hd hmem (by simp)
      rw [setField_append_of_not_mem acc key ex hkey] at h
      have hnd2 : ((acc ++ [(key, ex)]).map Prod.fst ++ rest.map Prod.fst).Nodup := by
        simpa [List.append_assoc] using hnd
      have := ih (acc ++ [(key, ex)]) out hnd2 h
      rw [this]
      simp
    | thrown m => rw [hg] at h; simp at h
    | fuelOut => rw [hg] at h; simp at h

theorem genProps_true_keys (g : Json → Res Json) (reqs : List Json) :
    ∀ (entries acc out : List (String × Json)),
      (acc.map Prod.fst ++ (entries.map Prod.fst).filter (reqHas reqs)).Nodup →
      genProps g (.arr reqs) true entries acc = .ok out →
      out.map Prod.fst = acc.map Prod.fst ++ (entries.map Prod.fst).filter (reqHas reqs) := by
  intro entries
  induction entries with
  | nil =>
    intro acc out _ h
    simp only [genProps, Res.ok.injEq] at h
    simp [← h]
  | cons kv rest ih =>
    obtain ⟨key, val⟩ := kv
    intro acc out hnd h
    have hinc : reqIncludesR (Json.arr reqs) key = .ok (reqHas reqs key) := rfl
    simp only [genProps, hinc, Res.bind_ok, if_true] at h
    cases hr : reqHas reqs key with
    | true =>
      rw [hr] at h
      simp only [Bool.not_true, Bool.false_eq_true, if_false] at h
      simp only [List.map_cons] at hnd ⊢
      rw [List.filter_cons_of_pos hr] at hnd ⊢
      cases hg : g val with
      | ok ex =>
        rw [hg] at h
        simp only [Res.bind_ok] at h
        have hkey : key ∉ acc.map Prod.fst := by
          have hd := (List.nodup_append.mp hnd).2.2
          intro hmem
          exact hd hmem (by simp)
        rw [setField_append_of_not_mem acc key ex hkey] at h
        have hnd2 : ((acc ++ [(key, ex)]).map Prod.fst ++
            (rest.map Prod.fst).filter (reqHas reqs)).Nodup := by
          simpa [List.append_assoc] using hnd
        have := ih (acc ++ [(key, ex)]) out hnd2 h
        rw [this]
        simp
      | thrown m => rw [hg] at h; simp at h
      | fuelOut => rw [hg] at h; simp at h
    | false =>
      rw [hr] at h
      simp only [Bool.not_false, if_true] at h
      simp only [List.map_cons] at hnd ⊢
      rw [List.filter_cons_of_neg (by simp [hr])] at hnd ⊢
      exact ih acc out hnd h

/-- The Synthesizer exhausts every fuel bound on the cyclic schema `cycNode`
in full mode: its recursion revisits `cycNode` after two nested calls. -/
theorem genExample_diverges_on_cycNode :
    ∀ n, generateExample n cycNode cycDoc false = .fuelOut := by
  intro n
  induction n using Nat.strong_induction_on with
  | _ n ih =>
    match n with
    | 0 => rfl
    | 1 => rfl
    | (m + 2) =>
      have h := ih m (by omega)
      show Res.bind (Res.bind (generateExample m cycNode cycDoc false) _) _ = Res.fuelOut
      rw [h]
      rfl

/-- The Describer exhausts every fuel bound on the cyclic schema `cycNode`,
at every depth. -/
theorem parseSchema_diverges_on_cycNode :
    ∀ n d, parseSchema n cycNode cycDoc d = .fuelOut := by
  intro n
  induction n using Nat.strong_induction_on with
  | _ n ih =>
    intro d
    match n with
    | 0 => rfl
    | 1 => rfl
    | (m + 2) =>
      have h := ih m (by omega) (d + 1)
      show Res.bind (parseSchema m cycNode cycDoc (d + 1)) _ = Res.fuelOut
      rw [h]
      rfl

/-! ## Claim theorems -/

set_option maxRecDepth 200000

/-- C1: the claim states that schema-level anomalies never abort the
Assembler and that producing the Required Parameters Example block cannot
raise an error.  The code violates this: on a document whose request-body
schema is a dangling `$ref`, `generateExample` returns `undefined` and the
unguarded `Object.keys(requiredEx)` at source line 92 throws a `TypeError`,
aborting the whole conversion even though the input parsed as JSON. -/
theorem C1_request_body_anomaly_throws :
    localConvertToLlmTxt 30 (some c1FailDoc) = .thrown "TypeError" := rfl

/-- C2 counterexample: at fuel 50 (far above the depth of the five-node
cyclic document) both the Describer and the Synthesizer are still recursing
on the self-referential schema — no cycle marker is ever emitted and neither
function has returned. -/
theorem C2_cycle_counterexample :
    generateExample 50 cycNode cycDoc false = .fuelOut ∧
    parseSchema 50 cycNode cycDoc 0 = .fuelOut := ⟨rfl, rfl⟩

/-- C2 amended: neither `parseSchema` nor `generateExample` carries a
visiting set; on a schema that reaches itself through `$ref` both recursions
are unbounded (they exhaust every fuel bound), so the conversion does not
return on a cyclic schema graph. -/
theorem C2_cyclic_schema_divergence :
    (∀ n, generateExample n cycNode cycDoc false = .fuelOut) ∧
    (∀ n d, parseSchema n cycNode cycDoc d = .fuelOut) :=
  ⟨genExample_diverges_on_cycNode, parseSchema_diverges_on_cycNode⟩

/-- The resolution walk models JavaScript string member access: indexing into
the string `"My API"` yields the one-character string `"M"` (truthy, so the
Describer recurses into it and emits nothing, never a placeholder), while an
index past the end of the string yields `undefined` (falsy, so the
placeholder does appear). -/
theorem resolveRef_string_indexing :
    resolveRef "#/info/title/0" titleDoc = .str "M" ∧
    parseSchema 10 (Json.obj [("$ref", Json.str "#/info/title/0")]) titleDoc 0 = .ok [] ∧
    resolveRef "#/info/title/6" titleDoc = Json.undefined ∧
    parseSchema 10 (Json.obj [("$ref", Json.str "#/info/title/6")]) titleDoc 0 =
      .ok ["- `Ref: #/info/title/6`"] := ⟨rfl, rfl, rfl, rfl⟩

/-- C3 counterexample: the resolution walk of `#/info/title` ends at the
non-container string `"My API"`, yet the Describer emits no placeholder line
(the truthy target is recursed into and produces nothing), contradicting the
claim that hitting a non-container value yields a visible placeholder. -/
theorem C3_counterexample :
    resolveRef "#/info/title" titleDoc = .str "My API" ∧
    parseSchema 10 refToTitle titleDoc 0 = .ok [] := ⟨rfl, rfl⟩

/-- C3 amended: the placeholder line is appended exactly when the resolved
value is falsy (`undefined` from a missing segment, or `null`/`false`/`0`/the
empty string); the Describer then raises no error and emits that single
line.  A truthy non-container target is instead recursed into, emitting
nothing. -/
theorem C3_falsy_resolution_placeholder (schema root : Json) (s : String) (d n : Nat)
    (hs : jsTruthy schema = true)
    (href : jsIndexRaw schema "$ref" = .str s)
    (hne : s ≠ "")
    (hfail : jsTruthy (resolveRef s root) = false) :
    parseSchema (n + 1) schema root d = .ok [indentStr d ++ "- `Ref: " ++ s ++ "`"] := by
  have e1 : jsTruthy (Json.str s) = true := by simp [jsTruthy, hne]
  simp only [parseSchema, hs, href, e1, hfail, if_true, if_false,
    Bool.true_eq_false, Bool.false_eq_true]

theorem C3_placeholder_witness :
    parseSchema 1 danglingRef (Json.obj []) 0 = .ok ["- `Ref: #/missing`"] :=
  C3_falsy_resolution_placeholder danglingRef (Json.obj []) "#/missing" 0 0 rfl rfl
    (by decide) rfl

/-- C4 counterexample: an `allOf` whose single child is an array schema
synthesizes to `{"0": 0}` — the array child (not an object) contributes its
index as a key, contradicting the claim that a child whose synthesis is not
an object contributes no keys to the merge. -/
theorem C4_counterexample :
    generateExample 3 c4ArrSchema (Json.obj []) false = .ok (.obj [("0", .num 0)]) ∧
    Json.obj [("0", Json.num 0)] ≠ Json.obj [] := ⟨rfl, by simp⟩

/-- C4 amended: for an `allOf` node (no `$ref`) the children are synthesized
left to right and spread into one object; when two object children overlap on
a key the later child's value wins, and a child whose synthesis is neither an
object nor an array contributes no keys (an array child contributes its
element indices as keys). -/
theorem C4_allOf_overwrite_merge (schema root : Json) (ro : Bool) (n : Nat) (c1 c2 : Json)
    (f1 : List (String × Json))
    (hs : jsTruthy schema = true)
    (href : jsTruthy (jsIndexRaw schema "$ref") = false)
    (hall : jsIndexRaw schema "allOf" = .arr [c1, c2])
    (hf1 : (f1.map Prod.fst).Nodup)
    (h1 : generateExample n c1 root ro = .ok (.obj f1)) :
    (∀ f2 : List (String × Json), (f2.map Prod.fst).Nodup →
        generateExample n c2 root ro = .ok (.obj f2) →
        ∃ mm, generateExample (n + 1) schema root ro = .ok (.obj mm) ∧
          ∀ k, mm.lookup k = firstSome (f2.lookup k) (f1.lookup k))
    ∧ (∀ v : Json, generateExample n c2 root ro = .ok v →
        (∀ xs, v ≠ .arr xs) → (∀ fs, v ≠ .obj fs) →
        generateExample (n + 1) schema root ro = .ok (.obj f1)) := by
  have et : jsTruthy (Json.arr [c1, c2]) = true := rfl
  have hsf1 : setFields [] f1 = f1 := by
    simpa using setFields_append f1 [] (by simpa using hf1)
  have hred : generateExample (n + 1) schema root ro =
      Res.bind (genAllOf (fun sub => generateExample n sub root ro) [c1, c2] [])
        (fun fs => .ok (.obj fs)) := by
    simp only [generateExample, hs, href, hall, et, if_true, if_false,
      Bool.true_eq_false, Bool.false_eq_true]
  constructor
  · intro f2 hf2 h2
    have hgen : genAllOf (fun sub => generateExample n sub root ro) [c1, c2] [] =
        .ok (setFields (setFields [] f1) f2) := by
      simp only [genAllOf, h1, h2, Res.bind_ok, spreadMerge]
    refine ⟨setFields (setFields [] f1) f2, by rw [hred, hgen]; rfl, ?_⟩
    intro k
    rw [lookup_setFields f2 hf2, hsf1]
  · intro v h2 hv1 hv2
    have hsm : spreadMerge (setFields [] f1) v = setFields [] f1 := by
      cases v with
      | arr xs => exact absurd rfl (hv1 xs)
      | obj fs => exact absurd rfl (hv2 fs)
      | undefined => rfl
      | null => rfl
      | bool b => rfl
      | num m => rfl
      | str s => rfl
    have hgen : genAllOf (fun sub => generateExample n sub root ro) [c1, c2] [] =
        .ok (setFields [] f1) := by
      simp only [genAllOf, h1, h2, Res.bind_ok, spreadMerge, hsm]
    rw [hred, hgen, hsf1]
    rfl

theorem C4_merge_witness :
    ∃ mm, generateExample 2 w4Schema (Json.obj []) false = .ok (.obj mm) ∧
      ∀ k, mm.lookup k = firstSome ([("b", Json.num 9)].lookup k)
        ([("a", Json.num 1), ("b", Json.num 2)].lookup k) :=
  (C4_allOf_overwrite_merge w4Schema (Json.obj []) false 1 w4c1 w4c2
    [("a", Json.num 1), ("b", Json.num 2)] rfl rfl rfl (by decide) rfl).1
    [("b", Json.num 9)] (by decide) rfl

/-- C5: on a node carrying `anyOf` or `oneOf` (and no `$ref` or `allOf`) the
synthesized example equals the synthesis of the first listed alternative with
the same flag, for every content of the remaining alternatives. -/
theorem C5_anyOf_oneOf_first_alternative (schema root a : Json) (rest : List Json)
    (ro : Bool) (n : Nat)
    (hs : jsTruthy schema = true)
    (href : jsTruthy (jsIndexRaw schema "$ref") = false)
    (hallOf : jsTruthy (jsIndexRaw schema "allOf") = false)
    (h : jsIndexRaw schema "anyOf" = .arr (a :: rest) ∨
      (jsTruthy (jsIndexRaw schema "anyOf") = false ∧
        jsIndexRaw schema "oneOf" = .arr (a :: rest))) :
    generateExample (n + 1) schema root ro = generateExample n a root ro := by
  have e0 : jsIndexRaw (Json.arr (a :: rest)) "0" = a := rfl
  have et : jsTruthy (Json.arr (a :: rest)) = true := rfl
  rcases h with h | ⟨h1, h2⟩
  · simp only [generateExample, hs, href, hallOf, h, et, e0, orTruthy, if_true, if_false,
      Bool.true_or, Bool.false_or, Bool.true_eq_false, Bool.false_eq_true]
  · simp only [generateExample, hs, href, hallOf, h1, h2, et, e0, orTruthy, if_true, if_false,
      Bool.true_or, Bool.false_or, Bool.true_eq_false, Bool.false_eq_true]

theorem C5_first_alternative_witness :
    generateExample 2 w5Schema (Json.obj []) false =
      generateExample 1 (Json.obj [("type", Json.str "integer")]) (Json.obj []) false :=
  C5_anyOf_oneOf_first_alternative w5Schema (Json.obj [])
    (Json.obj [("type", Json.str "integer")]) [Json.obj [("type", Json.str "string")]]
    false 1 rfl rfl rfl (Or.inl rfl)

/-- C6 counterexample: an object schema with one declared property `a` but
also an explicit (empty-object) `example` synthesizes, in full mode, to the
example verbatim — an object with no keys — contradicting the claim that the
key set is exactly the declared property names. -/
theorem C6_counterexample :
    ∃ fs, generateExample 2 c6Cex (Json.obj []) false = .ok (.obj fs) ∧
      fs.map Prod.fst ≠ ["a"] := ⟨[], rfl, by decide⟩

/-- C6 amended: for an object schema node with no composition keyword, no
`$ref`, and additionally no `example` and no `default` (both of which
preempt the property walk), full-mode synthesis — whenever it returns —
returns an object whose key set is exactly the declared property names in
declaration order. -/
theorem C6_full_synthesis_keys (schema root j : Json) (props : List (String × Json)) (n : Nat)
    (hs : jsTruthy schema = true)
    (href : jsTruthy (jsIndexRaw schema "$ref") = false)
    (hallOf : jsTruthy (jsIndexRaw schema "allOf") = false)
    (hanyOf : jsTruthy (jsIndexRaw schema "anyOf") = false)
    (honeOf : jsTruthy (jsIndexRaw schema "oneOf") = false)
    (hex : isUndef (jsIndexRaw schema "example") = true)
    (hdf : isUndef (jsIndexRaw schema "default") = true)
    (hobj : (typeIs (jsIndexRaw schema "type") "object"
      || jsTruthy (jsIndexRaw schema "properties")) = true)
    (hprops : orTruthy (jsIndexRaw schema "properties") (.obj []) = .obj props)
    (hnd : (props.map Prod.fst).Nodup)
    (hok : generateExample (n + 1) schema root false = .ok j) :
    ∃ fs, j = .obj fs ∧ fs.map Prod.fst = props.map Prod.fst := by
  have eprops : entriesOf (Json.obj props) = props := rfl
  simp only [generateExample, hs, href, hallOf, hanyOf, honeOf, hex, hdf, hobj, hprops,
    eprops, Bool.false_or, if_true, if_false, Bool.true_eq_false, Bool.false_eq_true] at hok
  cases hg : genProps (fun v => generateExample n v root false)
      (orTruthy (jsIndexRaw schema "required") (Json.arr [])) false props [] with
  | ok fs =>
    rw [hg] at hok
    simp only [Res.bind_ok, Res.ok.injEq] at hok
    refine ⟨fs, hok.symm, ?_⟩
    have := genProps_false_keys (fun v => generateExample n v root false)
      (orTruthy (jsIndexRaw schema "required") (Json.arr [])) props [] fs
      (by simpa using hnd) hg
    simpa using this
  | thrown m => rw [hg] at hok; simp at hok
  | fuelOut => rw [hg] at hok; simp at hok

theorem C6_keys_witness :
    ∃ fs, (Json.obj [("a", Json.str "string")] : Json) = .obj fs ∧
      fs.map Prod.fst = ["a"] :=
  C6_full_synthesis_keys w6Schema (Json.obj []) (Json.obj [("a", Json.str "string")])
    [("a", Json.obj [("type", Json.str "string")])] 1 rfl rfl rfl rfl rfl rfl rfl rfl rfl
    (by decide) rfl

/-- C7 counterexample: an object schema with an empty `required` list but an
explicit `example` synthesizes, in required-only mode, to the example
verbatim `{"z": 1}` — a key set that is not a subset of the required list and
(the schema having no composition keyword) not equal to it either. -/
theorem C7_counterexample :
    ∃ fs, generateExample 2 c7Cex (Json.obj []) true = .ok (.obj fs) ∧
      fs.map Prod.fst = ["z"] ∧
      orTruthy (jsIndexRaw c7Cex "required") (.arr []) = .arr [] ∧
      ¬ (["z"] : List String) ⊆ [] :=
  ⟨[("z", Json.num 1)], rfl, rfl, rfl, by decide⟩

/-- C7 amended: for an object schema node with no composition keyword, no
`$ref`, no `example` and no `default`, required-only synthesis — whenever it
returns — returns an object whose key set is the declared property names
filtered by membership in the `required` list (so always a subset of the
required list; equality with the whole required list holds only when every
required name is among the declared properties). -/
theorem C7_required_only_keys (schema root j : Json) (props : List (String × Json))
    (reqs : List Json) (n : Nat)
    (hs : jsTruthy schema = true)
    (href : jsTruthy (jsIndexRaw schema "$ref") = false)
    (hallOf : jsTruthy (jsIndexRaw schema "allOf") = false)
    (hanyOf : jsTruthy (jsIndexRaw schema "anyOf") = false)
    (honeOf : jsTruthy (jsIndexRaw schema "oneOf") = false)
    (hex : isUndef (jsIndexRaw schema "example") = true)
    (hdf : isUndef (jsIndexRaw schema "default") = true)
    (hobj : (typeIs (jsIndexRaw schema "type") "object"
      || jsTruthy (jsIndexRaw schema "properties")) = true)
    (hprops : orTruthy (jsIndexRaw schema "properties") (.obj []) = .obj props)
    (hreq : orTruthy (jsIndexRaw schema "required") (.arr []) = .arr reqs)
    (hnd : (props.map Prod.fst).Nodup)
    (hok : generateExample (n + 1) schema root true = .ok j) :
    ∃ fs, j = .obj fs ∧ fs.map Prod.fst = (props.map Prod.fst).filter (reqHas reqs) ∧
      ∀ k ∈ fs.map Prod.fst, reqHas reqs k = true := by
  have eprops : entriesOf (Json.obj props) = props := rfl
  simp only [generateExample, hs, href, hallOf, hanyOf, honeOf, hex, hdf, hobj, hprops, hreq,
    eprops, Bool.false_or, if_true, if_false, Bool.true_eq_false, Bool.false_eq_true] at hok
  cases hg : genProps (fun v => generateExample n v root true) (Json.arr reqs) true props [] with
  | ok fs =>
    rw [hg] at hok
    simp only [Res.bind_ok, Res.ok.injEq] at hok
    have hkeys := genProps_true_keys (fun v => generateExample n v root true) reqs props [] fs
      (by simpa using (hnd.filter (reqHas reqs))) hg
    refine ⟨fs, hok.symm, by simpa using hkeys, ?_⟩
    intro k hk
    rw [hkeys] at hk
    simp only [List.map_nil, List.nil_append, List.mem_filter] at hk
    exact hk.2
  | thrown m => rw [hg] at hok; simp at hok
  | fuelOut => rw [hg] at hok; simp at hok

theorem C7_required_keys_witness :
    ∃ fs, (Json.obj [("a", Json.str "string")] : Json) = .obj fs ∧
      fs.map Prod.fst = ["a"] ∧ ∀ k ∈ fs.map Prod.fst, reqHas [Json.str "a"] k = true :=
  C7_required_only_keys w7Schema (Json.obj []) (Json.obj [("a", Json.str "string")])
    [("a", Json.obj [("type", Json.str "string")]),
      ("b", Json.obj [("type", Json.str "integer")])]
    [Json.str "a"] 1 rfl rfl rfl rfl rfl rfl rfl rfl rfl rfl (by decide) rfl

/-- C8 counterexample: the empty JSON document `{}` parses, yet the
conversion throws a `TypeError` (at the unguarded `spec.info.title`, source
line 18) instead of degrading to the documented fallback title — refuting the
claim that a document with no `info` object still converts. -/
theorem C8_counterexample :
    localConvertToLlmTxt 5 (some (Json.obj [])) = .thrown "TypeError" := rfl

/-- C8 amended: when the parsed document has a defined, non-null `info`
value, a falsy `info.title` and a falsy `info.description` degrade to the
fallback lines `# API Documentation` and `No description provided.`; a
document with no `info` object at all instead throws a `TypeError`. -/
theorem C8_header_fallbacks (fuel : Nat) (spec info t d : Json)
    (hinfo : getMem spec "info" = .ok info)
    (ht : getMem info "title" = .ok t) (htf : jsTruthy t = false)
    (hd : getMem info "description" = .ok d) (hdf : jsTruthy d = false) :
    headerLines (fuel + 1) spec = .ok ["# API Documentation", "No description provided."] := by
  have jt : ∀ s : String, jsTemplate (fuel + 1) (Json.str s) = s := fun _ => rfl
  have app : "# " ++ "API Documentation" = "# API Documentation" := rfl
  simp only [headerLines, hinfo, ht, hd, Res.bind_ok, orTruthy, htf, hdf, if_false,
    Bool.false_eq_true, jt, app]

theorem C8_header_witness :
    headerLines 1 w8Doc = .ok ["# API Documentation", "No description provided."] :=
  C8_header_fallbacks 0 w8Doc (Json.obj []) .undefined .undefined rfl rfl rfl rfl rfl

/-- C9 counterexample: a response content whose `examples` map holds one
named entry (`sample`, value `{"b": 1}`) and a schema: the code reads
`examples?.[0]?.value` — the key `"0"`, not the first named entry — finds
nothing, and falls through to synthesizing `{"a": "string"}` from the schema
instead of using the named example's value. -/
theorem C9_counterexample :
    respExampleOf 3 c9Content c9Schema (Json.obj []) = .ok (.obj [("a", .str "string")]) ∧
    Json.obj [("a", Json.str "string")] ≠ Json.obj [("b", Json.num 1)] := ⟨rfl, by simp⟩

/-- C9 amended: the Example Response value is the truthy explicit `example`
of the `application/json` content if any, else the value under key `"0"` of
its `examples` (a named examples map's entries are otherwise ignored), else a
freshly synthesized full example: with no truthy `example` and an `examples`
map lacking key `"0"`, the selection equals plain schema synthesis. -/
theorem C9_named_examples_ignored (fuel : Nat) (content schema root : Json)
    (exs : List (String × Json))
    (h1 : jsTruthy (getMemOpt (jsIndexRaw content "application/json") "example") = false)
    (h2 : getMemOpt (jsIndexRaw content "application/json") "examples" = .obj exs)
    (h3 : exs.lookup "0" = none) :
    respExampleOf fuel content schema root = generateExample fuel schema root false := by
  have e2eq : getMemOpt (getMemOpt (Json.obj exs) "0") "value" = Json.undefined := by
    simp [getMemOpt, jsOptIndex, jsIndexRaw, h3]
  have eund : jsTruthy Json.undefined = false := rfl
  simp only [respExampleOf, h1, h2, e2eq, eund, if_false, Bool.false_eq_true]

theorem C9_ignored_witness :
    respExampleOf 3 c9Content c9Schema (Json.obj []) =
      generateExample 3 c9Schema (Json.obj []) false :=
  C9_named_examples_ignored 3 c9Content c9Schema (Json.obj [])
    [("sample", Json.obj [("value", Json.obj [("b", Json.num 1)])])] rfl rfl rfl

/-- C10 counterexample: a schema whose `allOf` key is present but holds
`null` is not dispatched to the merge branch (the guard is truthiness, not
presence); with no other keyword the synthesis returns `null`, not a plain
object. -/
theorem C10_counterexample :
    isUndef (jsIndexRaw c10Cex "allOf") = false ∧
    generateExample 2 c10Cex (Json.obj []) false = .ok .null := ⟨rfl, rfl⟩

/-- C10 amended: for a schema node whose `allOf` value is an array (of any
contents, even empty) and that carries no truthy `$ref`, the Synthesizer —
whenever it returns a value — returns a plain object, never `undefined`,
`null`, an array, or a primitive. -/
theorem C10_allOf_array_yields_object (schema root : Json) (subs : List Json) (ro : Bool)
    (n : Nat) (v : Json)
    (hs : jsTruthy schema = true)
    (href : jsTruthy (jsIndexRaw schema "$ref") = false)
    (hall : jsIndexRaw schema "allOf" = .arr subs)
    (hok : generateExample (n + 1) schema root ro = .ok v) :
    ∃ fs, v = .obj fs := by
  have et : jsTruthy (Json.arr subs) = true := rfl
  simp only [generateExample, hs, href, hall, et, if_true, if_false,
    Bool.true_eq_false, Bool.false_eq_true] at hok
  cases hg : genAllOf (fun sub => generateExample n sub root ro) subs [] with
  | ok fs =>
    rw [hg] at hok
    simp only [Res.bind_ok, Res.ok.injEq] at hok
    exact ⟨fs, hok.symm⟩
  | thrown m => rw [hg] at hok; simp at hok
  | fuelOut => rw [hg] at hok; simp at hok

theorem C10_object_witness :
    ∃ fs, (Json.obj [] : Json) = .obj fs :=
  C10_allOf_array_yields_object w10Schema (Json.obj [])
    [Json.obj [("$ref", Json.str "#/nope")]] false 1 (Json.obj []) rfl rfl rfl rfl
